import Mathlib

/-!
Verification of the apartment HVAC telemetry simulator.

This file is a shallow embedding of the simulator class found in
hvac_simulation_ml.py.  Numeric state is modelled with rationals; the
transcendental time-of-day factor (a sine wave) is modelled exactly over
the reals in a separate group of definitions, and enters the rational
state-transition functions as an explicit parameter.  Every random draw
performed by the source (uniform reals, uniform list choices) is passed
in explicitly through a draw structure, so each update routine is a pure
function of the previous state, the current time and the draws.
-/

/-- The fixed three rooms of the apartment, mirroring the list
["room1", "room2", "room3"] built in the constructor. -/
inductive Room where
  | room1
  | room2
  | room3
deriving DecidableEq, Fintype, Inhabited, Repr

/-- The HVAC mode strings "heating", "cooling" and "off" as a closed variant. -/
inductive HvacMode where
  | heating
  | cooling
  | off
deriving DecidableEq, Inhabited, Repr

/-- The fixed room ordering self.rooms. -/
def rooms : List Room := [Room.room1, Room.room2, Room.room3]

/-- The printable name of each room. -/
def roomName : Room → String
  | Room.room1 => "room1"
  | Room.room2 => "room2"
  | Room.room3 => "room3"

/-- The per-room property record: TargetTemperature, Mode, FanSpeed. -/
structure RoomProps where
  TargetTemperature : ℚ
  Mode : HvacMode
  FanSpeed : ℤ
deriving DecidableEq, Repr

/-- The mutable simulator state owned by the class instance. -/
structure SimState where
  start_time : ℚ
  weather_variation : ℚ
  weather_change_time : ℚ
  total_occupants : ℤ
  occupancy_state : Room → Bool
  occupancy_change_time : ℚ
  room_properties : Room → RoomProps
  property_change_time : ℚ

/-- Python int() truncation toward zero on a rational. -/
def pyInt (q : ℚ) : ℤ := if 0 ≤ q then ⌊q⌋ else ⌈q⌉

/-- Python float modulo: the result has the sign of the divisor
(for the positive divisors used here, the representative in [0, y)). -/
def pyMod (x y : ℚ) : ℚ := x - y * (⌊x / y⌋ : ℤ)

/-- hour_of_day = int(((now - start)/3600) % 24), lines 64-65 of the source. -/
def hour_of_day (start now : ℚ) : ℤ := pyInt (pyMod ((now - start) / 3600) 24)

/-- day_of_simulation = int(((now - start)/3600) / 24), line 109 of the source. -/
def day_of_simulation (start now : ℚ) : ℤ := pyInt ((now - start) / 3600 / 24)

/-- is_weekend = (day_of_simulation % 7) >= 5, line 110 of the source. -/
def is_weekend (start now : ℚ) : Bool := decide (5 ≤ day_of_simulation start now % 7)

/-- Python round(x, 1): round to one decimal digit.  The source rounds
floats half-to-even; only monotonicity and the fixed points (multiples of
one tenth) matter for every property proved below, and those agree. -/
def round01 (x : ℚ) : ℚ := ((round (10 * x) : ℤ) : ℚ) / 10

/-- random.choice on a list, with the uniform draw abstracted into an
arbitrary index taken modulo the length.  On the empty list (where the
source would raise) it returns the default element; every use below is
guarded by a nonemptiness fact. -/
def randomChoice {α : Type} [Inhabited α] (l : List α) (i : ℕ) : α :=
  l.getD (i % l.length) default

/-- The initial room property table from the constructor, lines 40-56. -/
def initProps : Room → RoomProps
  | Room.room1 => { TargetTemperature := 22, Mode := HvacMode.cooling, FanSpeed := 2 }
  | Room.room2 => { TargetTemperature := 21.5, Mode := HvacMode.heating, FanSpeed := 1 }
  | Room.room3 => { TargetTemperature := 23, Mode := HvacMode.off, FanSpeed := 0 }

/-- The random draws made by the constructor: the weather variation and the
three initial timer delays. -/
structure InitDraws where
  weatherVar : ℚ
  weatherDelay : ℚ
  occDelay : ℚ
  propDelay : ℚ

/-- The constructor, lines 16-59: zero occupants, every room unoccupied,
the fixed property table, and randomized change timers. -/
def initState (now : ℚ) (o : InitDraws) : SimState :=
  { start_time := now
    weather_variation := o.weatherVar
    weather_change_time := now + o.weatherDelay
    total_occupants := 0
    occupancy_state := fun _ => false
    occupancy_change_time := now + o.occDelay
    room_properties := initProps
    property_change_time := now + o.propDelay }

/-- The base occupancy probability table, lines 113-128. -/
def baseOccupancyProb (wk : Bool) (h : ℤ) : ℚ :=
  if wk then
    (if 8 ≤ h ∧ h ≤ 23 then 0.8 else 0.95)
  else
    (if 6 ≤ h ∧ h ≤ 8 then 0.9
     else if 8 < h ∧ h < 17 then 0.1
     else if 17 ≤ h ∧ h ≤ 22 then 0.85
     else 0.95)

/-- The preferred-room heuristic inside the add-people loop, lines 141-148. -/
def preferredRoom (hour : ℤ) (avail : List Room) : Option Room :=
  if 22 ≤ hour ∨ hour ≤ 6 then avail.head?
  else if 17 ≤ hour ∧ hour ≤ 21 then
    (if Room.room1 ∈ avail then some Room.room1 else none)
  else none

/-- Lines 150-153: take the preferred room when it is set and still
available, otherwise a uniform choice from the available rooms. -/
def pickRoom (avail : List Room) (pref : Option Room) (i : ℕ) : Room :=
  match pref with
  | some r => if r ∈ avail then r else randomChoice avail i
  | none => randomChoice avail i

/-- The add-people loop, lines 139-157: the iteration count is fixed up
front, and each pass occupies one available room and increments the total. -/
def addLoop : ℕ → List Room → (Room → Bool) → ℤ → ℤ → (ℕ → ℕ) → ℕ → ((Room → Bool) × ℤ)
  | 0, _, occ, tot, _, _, _ => (occ, tot)
  | Nat.succ n, avail, occ, tot, hour, pick, step =>
    let room := pickRoom avail (preferredRoom hour avail) (pick step)
    addLoop n (avail.erase room) (fun x => if x = room then true else occ x)
      (tot + 1) hour pick (step + 1)

/-- The remove-people loop, lines 164-168: each pass vacates one uniformly
chosen occupied room and decrements the total. -/
def removeLoop : ℕ → List Room → (Room → Bool) → ℤ → (ℕ → ℕ) → ℕ → ((Room → Bool) × ℤ)
  | 0, _, occ, tot, _, _ => (occ, tot)
  | Nat.succ n, occupied, occ, tot, pick, step =>
    let room := randomChoice occupied (pick step)
    removeLoop n (occupied.erase room) (fun x => if x = room then false else occ x)
      (tot - 1) pick (step + 1)

/-- The relocation step, lines 171-180: with the 30 percent roll and both an
occupied and an unoccupied room present, move one occupant.  The source
assigns from_room := False then to_room := True, so the to_room write wins. -/
def moveStep (occ : Room → Bool) (tot : ℤ) (roll : ℚ) (i j : ℕ) : Room → Bool :=
  if tot > 0 ∧ roll < 0.3 then
    let occupied := rooms.filter (fun r => occ r)
    let avail := rooms.filter (fun r => ! occ r)
    if occupied ≠ [] ∧ avail ≠ [] then
      let fromRoom := randomChoice occupied i
      let toRoom := randomChoice avail j
      fun r => if r = toRoom then true else if r = fromRoom then false else occ r
    else occ
  else occ

/-- The random draws consumed by one firing of update_occupancy. -/
structure OccDraws where
  roll1 : ℚ
  roll2 : ℚ
  pick : ℕ → ℕ
  moveRoll : ℚ
  moveFrom : ℕ
  moveTo : ℕ
  delay : ℚ

/-- update_occupancy, lines 101-183: gated by now > occupancy_change_time;
draws a target occupant count with two sequential rolls, adjusts occupancy
toward it, possibly relocates one occupant, and reschedules the timer. -/
def update_occupancy (s : SimState) (now : ℚ) (o : OccDraws) : SimState :=
  if now > s.occupancy_change_time then
    let hour := hour_of_day s.start_time now
    let wk := is_weekend s.start_time now
    let prob := baseOccupancyProb wk hour
    let target : ℤ := if o.roll1 < prob then 2 else if o.roll2 < 0.6 then 1 else 0
    let p :=
      if s.total_occupants < target then
        let avail := rooms.filter (fun r => ! s.occupancy_state r)
        addLoop (min (target - s.total_occupants).toNat avail.length) avail
          s.occupancy_state s.total_occupants hour o.pick 0
      else if target < s.total_occupants then
        let occupied := rooms.filter (fun r => s.occupancy_state r)
        removeLoop (min (s.total_occupants - target).toNat occupied.length) occupied
          s.occupancy_state s.total_occupants o.pick 0
      else (s.occupancy_state, s.total_occupants)
    let occ2 := moveStep p.1 p.2 o.moveRoll o.moveFrom o.moveTo
    { s with occupancy_state := occ2, total_occupants := p.2,
             occupancy_change_time := now + o.delay }
  else s

/-- The target-temperature schedule table, lines 200-215. -/
def schedBase (wk : Bool) (h : ℤ) : ℚ :=
  if wk then
    (if 22 ≤ h ∨ h ≤ 7 then 20 else 22)
  else
    (if 8 < h ∧ h < 17 then 19
     else if 6 ≤ h ∧ h ≤ 8 then 22
     else if 17 ≤ h ∧ h ≤ 22 then 22.5
     else 20)

/-- One room draw of the schedule: base plus uniform offset, clamped to
[18, 26] and rounded to a tenth, line 218. -/
def newTargetTemp (wk : Bool) (h : ℤ) (u : ℚ) : ℚ :=
  round01 (max 18 (min 26 (schedBase wk h + u)))

/-- The seasonal mode pick, lines 227-232: a forced branch on the
approximate ambient temperature, otherwise the uniform three-way draw. -/
def modeSelect (ambient : ℚ) (draw : HvacMode) : HvacMode :=
  if ambient > 25 then HvacMode.cooling
  else if ambient < 12 then HvacMode.heating
  else draw

/-- The random draws consumed by one firing of update_room_properties. -/
structure PropDraws where
  u : Room → ℚ
  modeRoll : ℚ
  roomIdx : ℕ
  modeDraw : ℕ
  fanIdx : ℕ
  delay : ℚ

/-- update_room_properties, lines 185-243: gated by now >
property_change_time; redraws every target temperature from the schedule
table, with probability 0.2 reassigns one room mode (forcing the fan speed
to 0 exactly when the new mode is off, and to a uniform draw from
{1, 2, 3} otherwise), then reschedules the timer.  The sine-valued
time factor of line 225 enters as the parameter tf; its exact value is
the real-valued time_factor defined below. -/
def update_room_properties (s : SimState) (now tf : ℚ) (o : PropDraws) : SimState :=
  if now > s.property_change_time then
    let hour := hour_of_day s.start_time now
    let wk := is_weekend s.start_time now
    let props1 : Room → RoomProps := fun r =>
      { s.room_properties r with TargetTemperature := newTargetTemp wk hour (o.u r) }
    let props2 : Room → RoomProps :=
      if o.modeRoll < 0.2 then
        let room := randomChoice rooms o.roomIdx
        let m := modeSelect (15 + 6.5 * tf)
          (randomChoice [HvacMode.off, HvacMode.heating, HvacMode.cooling] o.modeDraw)
        let fs : ℤ := if m = HvacMode.off then 0 else randomChoice [(1 : ℤ), 2, 3] o.fanIdx
        fun r => if r = room then { props1 room with Mode := m, FanSpeed := fs } else props1 r
      else props1
    { s with room_properties := props2, property_change_time := now + o.delay }
  else s

/-- The random draws consumed by get_ambient_conditions. -/
structure AmbDraws where
  weatherVar : ℚ
  weatherDelay : ℚ
  humJitter : ℚ

/-- get_ambient_conditions, lines 72-99: a possible weather redraw gated by
now > weather_change_time, then the ambient temperature and clamped
humidity.  The two sine values of lines 68 and 93 enter as the parameters
tf and tf3.  Returns the updated state with the two rounded readings. -/
def get_ambient_conditions (s : SimState) (now tf tf3 : ℚ) (o : AmbDraws) :
    SimState × ℚ × ℚ :=
  let s1 :=
    if now > s.weather_change_time then
      { s with weather_variation := o.weatherVar,
               weather_change_time := now + o.weatherDelay }
    else s
  let ambient_temp := 15 + 6.5 * tf + s1.weather_variation
  let humidity_variation := -10 * tf + 15 * tf3
  let ambient_humidity := max 30 (min 90 (60 + humidity_variation + o.humJitter))
  (s1, round01 ambient_temp, round01 ambient_humidity)

/-- The fixed per-room temperature offsets, lines 256-260. -/
def roomVariation : Room → ℚ
  | Room.room1 => 0.5
  | Room.room2 => -0.3
  | Room.room3 => 0

/-- The random draws consumed by get_room_temperature. -/
structure TempDraws where
  heatU : ℚ
  coolU : ℚ
  jitter : ℚ

/-- get_room_temperature, lines 245-291: base indoor level, dampened
ambient influence, room offset, occupancy heat, a mode-dependent HVAC
effect, jitter, then clamp to [16, 30] and round to a tenth. -/
def get_room_temperature (s : SimState) (room : Room) (ambient_temp tf : ℚ)
    (o : TempDraws) : ℚ :=
  let base_indoor := 21 + 2 * tf
  let ambient_influence := (ambient_temp - 15) * 0.3
  let occupancy_heat : ℚ := if s.occupancy_state room then 1.5 else 0
  let target_temp := (s.room_properties room).TargetTemperature
  let current_base := base_indoor + ambient_influence + roomVariation room + occupancy_heat
  let hvac_effect : ℚ :=
    match (s.room_properties room).Mode with
    | HvacMode.heating =>
        if current_base < target_temp then
          min ((target_temp - current_base) * 0.3) 2 + o.heatU
        else 0
    | HvacMode.cooling =>
        if current_base > target_temp then
          -(min ((current_base - target_temp) * 0.3) 2) - o.coolU
        else 0
    | HvacMode.off => 0
  round01 (max 16 (min 30 (current_base + hvac_effect + o.jitter)))

/-- The random draws consumed by get_room_humidity. -/
structure HumDraws where
  drop : ℚ
  dryCool : ℚ
  dryHeat : ℚ
  jitter : ℚ

/-- get_room_humidity, lines 293-315: ambient humidity minus an indoor
drop, plus occupancy and mode effects and jitter, clamped to [25, 75] and
rounded to a tenth. -/
def get_room_humidity (s : SimState) (room : Room) (ambient_humidity : ℚ)
    (o : HumDraws) : ℚ :=
  let base_indoor_humidity := ambient_humidity - o.drop
  let occupancy_humidity : ℚ := if s.occupancy_state room then 5 else 0
  let hvac_humidity_effect : ℚ :=
    match (s.room_properties room).Mode with
    | HvacMode.cooling => -o.dryCool
    | HvacMode.heating => -o.dryHeat
    | HvacMode.off => 0
  round01 (max 25 (min 75
    (base_indoor_humidity + occupancy_humidity + hvac_humidity_effect + o.jitter)))

/-- The fan speed multiplier table with default 1.0, lines 343-344. -/
def fanMultiplier (f : ℤ) : ℚ :=
  if f = 0 then 0.1 else if f = 1 then 0.7 else if f = 2 then 1
  else if f = 3 then 1.3 else 1

/-- The random draws consumed by get_power_consumption. -/
structure PowerDraws where
  standby : ℚ
  heatBase : ℚ
  coolBase : ℚ
  noise : ℚ

/-- get_power_consumption, lines 317-351: standby draw for mode off,
otherwise the mode base power (dictionary default 10) scaled by the fan
multiplier plus noise, floored at 5 and rounded to a tenth. -/
def get_power_consumption (p : RoomProps) (o : PowerDraws) : ℚ :=
  if p.Mode = HvacMode.off then round01 o.standby
  else
    let mode_power : ℚ :=
      match p.Mode with
      | HvacMode.heating => o.heatBase
      | HvacMode.cooling => o.coolBase
      | HvacMode.off => 10
    round01 (max 5 (mode_power * fanMultiplier p.FanSpeed + o.noise))

/-- A JSON scalar value as serialized into an event payload. -/
inductive JVal where
  | num (q : ℚ)
  | str (s : String)
  | bool (b : Bool)
  | int (n : ℤ)
deriving DecidableEq, Repr

/-- The apartment_summary payload of lines 355-362, as the ordered list of
key and value pairs passed to json.dumps. -/
def apartment_event (s : SimState) (ts : String) (ambT ambH : ℚ) :
    List (String × JVal) :=
  [("EventType", JVal.str ("apartment_summary")),
   ("Timestamp", JVal.str ts),
   ("UnitID", JVal.str ("001")),
   ("AmbientTemperature", JVal.num ambT),
   ("AmbientHumidity", JVal.num ambH),
   ("TotalOccupantCount", JVal.int s.total_occupants)]

/-- The sensor_reading payload of lines 380-394, as the ordered list of
key and value pairs passed to json.dumps. -/
def sensor_event (s : SimState) (room : Room) (ts : String)
    (ambT ambH ct hum pw : ℚ) : List (String × JVal) :=
  [("EventType", JVal.str ("sensor_reading")),
   ("Timestamp", JVal.str ts),
   ("UnitID", JVal.str ("001")),
   ("RoomID", JVal.str (roomName room)),
   ("AmbientTemperature", JVal.num ambT),
   ("AmbientHumidity", JVal.num ambH),
   ("CurrentTemperature", JVal.num ct),
   ("TargetTemperature", JVal.num (s.room_properties room).TargetTemperature),
   ("FanSpeed", JVal.int (s.room_properties room).FanSpeed),
   ("Humidity", JVal.num hum),
   ("Occupancy", JVal.bool (s.occupancy_state room)),
   ("PowerConsumption", JVal.num pw),
   ("TotalOccupantCount", JVal.int s.total_occupants)]

/-- The publish capability of the telemetry sink: sending a payload either
succeeds or fails with an error message, modelling the exception raised by
the client. -/
def Publish : Type := List (String × JVal) → Except String Unit

/-- send_apartment_telemetry, lines 353-370: the try block around the send
is modelled by matching on the publish outcome; both arms return a log
line, so a failure never escapes. -/
def send_apartment_telemetry (s : SimState) (pub : Publish) (ts : String)
    (ambT ambH : ℚ) : String :=
  match pub (apartment_event s ts ambT ambH) with
  | Except.ok _ => ("[APARTMENT] sent")
  | Except.error e => (("Error sending apartment telemetry: ") ++ e)

/-- send_room_telemetry, lines 372-406: synthesizes the three sensor
values, builds the payload and publishes it, catching any failure and
turning it into a log line. -/
def send_room_telemetry (s : SimState) (room : Room) (pub : Publish)
    (ts : String) (ambT ambH tf : ℚ) (ot : TempDraws) (oh : HumDraws)
    (op : PowerDraws) : String :=
  let ct := get_room_temperature s room ambT tf ot
  let hum := get_room_humidity s room ambH oh
  let pw := get_power_consumption (s.room_properties room) op
  match pub (sensor_event s room ts ambT ambH ct hum pw) with
  | Except.ok _ => (("[") ++ roomName room ++ ("] sent"))
  | Except.error e =>
      (("Error sending telemetry for ") ++ roomName room ++ (": ") ++ e)

/-- All non-publish inputs of one loop iteration: the random draws of every
routine, the two sine values and the timestamp string. -/
structure TickDraws where
  oo : OccDraws
  op : PropDraws
  oa : AmbDraws
  tf : ℚ
  tf3 : ℚ
  ot : Room → TempDraws
  oh : Room → HumDraws
  opw : Room → PowerDraws
  ts : String

/-- One iteration of the run_simulation loop body, lines 420-436: update
occupancy, update room properties, compute ambient conditions, then emit
the apartment record followed by one record per room in the fixed order.
Returns the new state and the log lines of the tick. -/
def tick (s : SimState) (now : ℚ) (d : TickDraws) (pub : Publish) :
    SimState × List String :=
  let s1 := update_occupancy s now d.oo
  let s2 := update_room_properties s1 now d.tf d.op
  let res := get_ambient_conditions s2 now d.tf d.tf3 d.oa
  let s3 := res.1
  let ambT := res.2.1
  let ambH := res.2.2
  let aptLog := send_apartment_telemetry s3 pub d.ts ambT ambH
  let roomLogs := rooms.map (fun r =>
    send_room_telemetry s3 r pub d.ts ambT ambH d.tf (d.ot r) (d.oh r) (d.opw r))
  (s3, aptLog :: roomLogs)

/-- The simulation loop, lines 417-446, over a fixed number of iterations:
every tick runs to completion and the loop always proceeds to the next
iteration, whatever the publish outcomes are. -/
def runTicks : ℕ → SimState → (ℕ → ℚ) → (ℕ → TickDraws) → (ℕ → Publish) →
    SimState × List (List String)
  | 0, s, _, _, _ => (s, [])
  | Nat.succ n, s, times, draws, pubs =>
    let t := tick s (times 0) (draws 0) (pubs 0)
    let rest := runTicks n t.1 (fun k => times (k + 1)) (fun k => draws (k + 1))
      (fun k => pubs (k + 1))
    (rest.1, t.2 :: rest.2)

/-- The states the simulator can be in: the constructed initial state,
closed under the three state-mutating routines.  The sensor synthesis and
emission code never writes simulator state. -/
inductive Reachable : SimState → Prop where
  | init (now : ℚ) (o : InitDraws) : Reachable (initState now o)
  | occ (s : SimState) (now : ℚ) (o : OccDraws) :
      Reachable s → Reachable (update_occupancy s now o)
  | props (s : SimState) (now tf : ℚ) (o : PropDraws) :
      Reachable s → Reachable (update_room_properties s now tf o)
  | amb (s : SimState) (now tf tf3 : ℚ) (o : AmbDraws) :
      Reachable s → Reachable ((get_ambient_conditions s now tf tf3 o).1)

/-- The exact sinusoidal time-of-day factor of line 68,
sin(2 pi (hour_of_day - 6) / 24), over the reals. -/
noncomputable def time_factor (h : ℤ) : ℝ :=
  Real.sin (2 * Real.pi * ((h : ℝ) - 6) / 24)

/-- The approximate ambient temperature of line 225,
15.0 + 6.5 * time_factor. -/
noncomputable def ambient_approx (h : ℤ) : ℝ := 15 + 6.5 * time_factor h

/-- The number of rooms whose occupancy flag is true. -/
def countOcc (occ : Room → Bool) : ℤ := ((rooms.filter (fun r => occ r)).length : ℤ)

/-- The occupancy bookkeeping invariant of the simulator state. -/
def OccInv (s : SimState) : Prop :=
  s.total_occupants = countOcc s.occupancy_state ∧
  0 ≤ s.total_occupants ∧ s.total_occupants ≤ 2

/-- The room property invariant of the simulator state: target temperature
within bounds, fan speed in the admissible set, and the fan speed and mode
biconditional. -/
def PropInv (s : SimState) : Prop :=
  ∀ r : Room,
    (18 ≤ (s.room_properties r).TargetTemperature ∧
     (s.room_properties r).TargetTemperature ≤ 26) ∧
    ((s.room_properties r).FanSpeed = 0 ∨ (s.room_properties r).FanSpeed = 1 ∨
     (s.room_properties r).FanSpeed = 2 ∨ (s.room_properties r).FanSpeed = 3) ∧
    ((s.room_properties r).FanSpeed = 0 ↔ (s.room_properties r).Mode = HvacMode.off)

lemma round01_mono {x y : ℚ} (h : x ≤ y) : round01 x ≤ round01 y := by
  unfold round01
  have h2 : round (10 * x) ≤ round (10 * y) := by
    rw [round_eq, round_eq]
    exact Int.floor_le_floor (by linarith)
  have h3 : ((round (10 * x) : ℤ) : ℚ) ≤ ((round (10 * y) : ℤ) : ℚ) := by exact_mod_cast h2
  linarith

lemma round01_tenth (n : ℤ) : round01 ((n : ℚ) / 10) = (n : ℚ) / 10 := by
  unfold round01
  rw [show (10 : ℚ) * ((n : ℚ) / 10) = (n : ℚ) by ring, round_intCast]

lemma round01_ge (lo : ℚ) {x : ℚ} (n : ℤ) (hn : lo = (n : ℚ) / 10) (h : lo ≤ x) :
    lo ≤ round01 x := by
  calc lo = round01 lo := by rw [hn, round01_tenth]
  _ ≤ round01 x := round01_mono h

lemma round01_le (hi : ℚ) {x : ℚ} (n : ℤ) (hn : hi = (n : ℚ) / 10) (h : x ≤ hi) :
    round01 x ≤ hi := by
  calc round01 x ≤ round01 hi := round01_mono h
  _ = hi := by rw [hn, round01_tenth]

lemma rooms_nodup : rooms.Nodup := by decide

lemma countOcc_eq (occ : Room → Bool) :
    countOcc occ = (if occ Room.room1 then 1 else 0) + (if occ Room.room2 then 1 else 0) +
      (if occ Room.room3 then 1 else 0) := by
  cases h1 : occ Room.room1 <;> cases h2 : occ Room.room2 <;> cases h3 : occ Room.room3 <;>
    simp [countOcc, rooms, List.filter, h1, h2, h3]

lemma countOcc_set_true {occ : Room → Bool} {room : Room} (h : occ room = false) :
    countOcc (fun x => if x = room then true else occ x) = countOcc occ + 1 := by
  cases room <;> cases h1 : occ Room.room1 <;> cases h2 : occ Room.room2 <;>
    cases h3 : occ Room.room3 <;> simp_all [countOcc_eq]

lemma countOcc_set_false {occ : Room → Bool} {room : Room} (h : occ room = true) :
    countOcc (fun x => if x = room then false else occ x) = countOcc occ - 1 := by
  cases room <;> cases h1 : occ Room.room1 <;> cases h2 : occ Room.room2 <;>
    cases h3 : occ Room.room3 <;> simp_all [countOcc_eq]

lemma countOcc_move {occ : Room → Bool} {f t : Room} (hf : occ f = true)
    (ht : occ t = false) :
    countOcc (fun r => if r = t then true else if r = f then false else occ r) =
      countOcc occ := by
  cases f <;> cases t <;> cases h1 : occ Room.room1 <;> cases h2 : occ Room.room2 <;>
    cases h3 : occ Room.room3 <;> simp_all [countOcc_eq]

lemma randomChoice_mem {α : Type} [Inhabited α] (l : List α) (i : ℕ) (h : l ≠ []) :
    randomChoice l i ∈ l := by
  unfold randomChoice
  have hl : 0 < l.length := List.length_pos.mpr h
  have hm : i % l.length < l.length := Nat.mod_lt _ hl
  rw [List.getD_eq_getElem l default hm]
  exact List.getElem_mem hm

lemma pickRoom_mem (avail : List Room) (pref : Option Room) (i : ℕ) (h : avail ≠ []) :
    pickRoom avail pref i ∈ avail := by
  cases pref with
  | none => exact randomChoice_mem _ _ h
  | some r =>
    by_cases hr : r ∈ avail
    · simp [pickRoom, hr]
    · simp only [pickRoom, if_neg hr]
      exact randomChoice_mem _ _ h

lemma addLoop_spec (n : ℕ) :
    ∀ (avail : List Room) (occ : Room → Bool) (tot hour : ℤ) (pick : ℕ → ℕ) (step : ℕ),
    avail.Nodup → (∀ r ∈ avail, occ r = false) → tot = countOcc occ →
    n ≤ avail.length →
    (addLoop n avail occ tot hour pick step).2 =
      countOcc (addLoop n avail occ tot hour pick step).1 ∧
    (addLoop n avail occ tot hour pick step).2 = tot + n := by
  induction n with
  | zero =>
    intro avail occ tot hour pick step _ _ htot _
    simpa [addLoop] using htot
  | succ n ih =>
    intro avail occ tot hour pick step hnd hfalse htot hlen
    have hne : avail ≠ [] := by
      intro he
      rw [he] at hlen
      simp at hlen
    have hmem : pickRoom avail (preferredRoom hour avail) (pick step) ∈ avail :=
      pickRoom_mem _ _ _ hne
    set room := pickRoom avail (preferredRoom hour avail) (pick step) with hroomdef
    have hoccr : occ room = false := hfalse room hmem
    have h1 : (avail.erase room).Nodup := hnd.erase _
    have h2 : ∀ r ∈ avail.erase room, (fun x => if x = room then true else occ x) r = false := by
      intro r hr
      have hrne : r ≠ room := ((List.Nodup.mem_erase_iff hnd).mp hr).1
      have hrm : r ∈ avail := ((List.Nodup.mem_erase_iff hnd).mp hr).2
      simp only [if_neg hrne]
      exact hfalse r hrm
    have h3 : tot + 1 = countOcc (fun x => if x = room then true else occ x) := by
      rw [countOcc_set_true hoccr]
      omega
    have h4 : n ≤ (avail.erase room).length := by
      rw [List.length_erase_of_mem hmem]
      omega
    have hrec := ih (avail.erase room) (fun x => if x = room then true else occ x)
      (tot + 1) hour pick (step + 1) h1 h2 h3 h4
    have heq : addLoop (Nat.succ n) avail occ tot hour pick step =
        addLoop n (avail.erase room) (fun x => if x = room then true else occ x)
          (tot + 1) hour pick (step + 1) := by
      rw [hroomdef]
      rfl
    rw [heq]
    refine ⟨hrec.1, ?_⟩
    rw [hrec.2]
    omega

lemma removeLoop_spec (n : ℕ) :
    ∀ (occupied : List Room) (occ : Room → Bool) (tot : ℤ) (pick : ℕ → ℕ) (step : ℕ),
    occupied.Nodup → (∀ r ∈ occupied, occ r = true) → tot = countOcc occ →
    n ≤ occupied.length →
    (removeLoop n occupied occ tot pick step).2 =
      countOcc (removeLoop n occupied occ tot pick step).1 ∧
    (removeLoop n occupied occ tot pick step).2 = tot - n := by
  induction n with
  | zero =>
    intro occupied occ tot pick step _ _ htot _
    simpa [removeLoop] using htot
  | succ n ih =>
    intro occupied occ tot pick step hnd htrue htot hlen
    have hne : occupied ≠ [] := by
      intro he
      rw [he] at hlen
      simp at hlen
    have hmem : randomChoice occupied (pick step) ∈ occupied := randomChoice_mem _ _ hne
    set room := randomChoice occupied (pick step) with hroomdef
    have hoccr : occ room = true := htrue room hmem
    have h1 : (occupied.erase room).Nodup := hnd.erase _
    have h2 : ∀ r ∈ occupied.erase room,
        (fun x => if x = room then false else occ x) r = true := by
      intro r hr
      have hrne : r ≠ room := ((List.Nodup.mem_erase_iff hnd).mp hr).1
      have hrm : r ∈ occupied := ((List.Nodup.mem_erase_iff hnd).mp hr).2
      simp only [if_neg hrne]
      exact htrue r hrm
    have h3 : tot - 1 = countOcc (fun x => if x = room then false else occ x) := by
      rw [countOcc_set_false hoccr]
      omega
    have h4 : n ≤ (occupied.erase room).length := by
      rw [List.length_erase_of_mem hmem]
      omega
    have hrec := ih (occupied.erase room) (fun x => if x = room then false else occ x)
      (tot - 1) pick (step + 1) h1 h2 h3 h4
    have heq : removeLoop (Nat.succ n) occupied occ tot pick step =
        removeLoop n (occupied.erase room) (fun x => if x = room then false else occ x)
          (tot - 1) pick (step + 1) := by
      rw [hroomdef]
      rfl
    rw [heq]
    refine ⟨hrec.1, ?_⟩
    rw [hrec.2]
    omega

lemma moveStep_count (occ : Room → Bool) (tot : ℤ) (roll : ℚ) (i j : ℕ) :
    countOcc (moveStep occ tot roll i j) = countOcc occ := by
  unfold moveStep
  by_cases h1 : tot > 0 ∧ roll < 0.3
  · simp only [if_pos h1]
    by_cases h2 : rooms.filter (fun r => occ r) ≠ [] ∧ rooms.filter (fun r => ! occ r) ≠ []
    · simp only [if_pos h2]
      have hf : occ (randomChoice (rooms.filter (fun r => occ r)) i) = true := by
        have hm := randomChoice_mem (rooms.filter (fun r => occ r)) i h2.1
        exact (List.mem_filter.mp hm).2
      have ht : occ (randomChoice (rooms.filter (fun r => ! occ r)) j) = false := by
        have hm := randomChoice_mem (rooms.filter (fun r => ! occ r)) j h2.2
        have h' := (List.mem_filter.mp hm).2
        simpa using h'
      exact countOcc_move hf ht
    · simp only [if_neg h2]
  · simp only [if_neg h1]

lemma update_occupancy_occInv {s : SimState} (now : ℚ) (o : OccDraws)
    (hInv : OccInv s) : OccInv (update_occupancy s now o) := by
  unfold update_occupancy
  by_cases hgate : now > s.occupancy_change_time
  · simp only [if_pos hgate]
    obtain ⟨htot, h0, h2⟩ := hInv
    set hour := hour_of_day s.start_time now with hhour
    set target : ℤ :=
      if o.roll1 < baseOccupancyProb (is_weekend s.start_time now) hour then 2
      else if o.roll2 < 0.6 then 1 else 0 with htargetdef
    have htb : 0 ≤ target ∧ target ≤ 2 := by
      rw [htargetdef]
      split_ifs <;> omega
    set p :=
      (if s.total_occupants < target then
        addLoop (min (target - s.total_occupants).toNat
            (rooms.filter (fun r => ! s.occupancy_state r)).length)
          (rooms.filter (fun r => ! s.occupancy_state r))
          s.occupancy_state s.total_occupants hour o.pick 0
      else if target < s.total_occupants then
        removeLoop (min (s.total_occupants - target).toNat
            (rooms.filter (fun r => s.occupancy_state r)).length)
          (rooms.filter (fun r => s.occupancy_state r))
          s.occupancy_state s.total_occupants o.pick 0
      else (s.occupancy_state, s.total_occupants)) with hpdef
    have hp : p.2 = countOcc p.1 ∧ 0 ≤ p.2 ∧ p.2 ≤ 2 := by
      rw [hpdef]
      by_cases hlt : s.total_occupants < target
      · simp only [if_pos hlt]
        have hnd : (rooms.filter (fun r => ! s.occupancy_state r)).Nodup :=
          rooms_nodup.filter _
        have hfalse : ∀ r ∈ rooms.filter (fun r => ! s.occupancy_state r),
            s.occupancy_state r = false := by
          intro r hr
          have := (List.mem_filter.mp hr).2
          simpa using this
        have hspec := addLoop_spec
          (min (target - s.total_occupants).toNat
            (rooms.filter (fun r => ! s.occupancy_state r)).length)
          (rooms.filter (fun r => ! s.occupancy_state r))
          s.occupancy_state s.total_occupants hour o.pick 0 hnd hfalse htot
          (min_le_right _ _)
        refine ⟨hspec.1, ?_, ?_⟩ <;> rw [hspec.2] <;> omega
      · simp only [if_neg hlt]
        by_cases hgt : target < s.total_occupants
        · simp only [if_pos hgt]
          have hnd : (rooms.filter (fun r => s.occupancy_state r)).Nodup :=
            rooms_nodup.filter _
          have htrue : ∀ r ∈ rooms.filter (fun r => s.occupancy_state r),
              s.occupancy_state r = true := by
            intro r hr
            exact (List.mem_filter.mp hr).2
          have hspec := removeLoop_spec
            (min (s.total_occupants - target).toNat
              (rooms.filter (fun r => s.occupancy_state r)).length)
            (rooms.filter (fun r => s.occupancy_state r))
            s.occupancy_state s.total_occupants o.pick 0 hnd htrue htot
            (min_le_right _ _)
          refine ⟨hspec.1, ?_, ?_⟩ <;> rw [hspec.2] <;> omega
        · simp only [if_neg hgt]
          exact ⟨htot, h0, h2⟩
    refine ⟨?_, hp.2.1, hp.2.2⟩
    simp only [moveStep_count]
    exact hp.1
  · simp only [if_neg hgate]
    exact hInv

lemma update_occupancy_props (s : SimState) (now : ℚ) (o : OccDraws) :
    (update_occupancy s now o).room_properties = s.room_properties := by
  unfold update_occupancy
  split <;> rfl

lemma update_props_frame (s : SimState) (now tf : ℚ) (o : PropDraws) :
    (update_room_properties s now tf o).occupancy_state = s.occupancy_state ∧
    (update_room_properties s now tf o).total_occupants = s.total_occupants := by
  unfold update_room_properties
  split <;> exact ⟨rfl, rfl⟩

lemma amb_frame (s : SimState) (now tf tf3 : ℚ) (o : AmbDraws) :
    ((get_ambient_conditions s now tf tf3 o).1).occupancy_state = s.occupancy_state ∧
    ((get_ambient_conditions s now tf tf3 o).1).total_occupants = s.total_occupants ∧
    ((get_ambient_conditions s now tf tf3 o).1).room_properties = s.room_properties := by
  unfold get_ambient_conditions
  by_cases h : now > s.weather_change_time <;> simp [h]

lemma occInv_congr {s' s : SimState} (h1 : s'.total_occupants = s.total_occupants)
    (h2 : s'.occupancy_state = s.occupancy_state) (ho : OccInv s) : OccInv s' := by
  unfold OccInv at ho ⊢
  rw [h1, h2]
  exact ho

lemma propInv_congr {s' s : SimState} (h : s'.room_properties = s.room_properties)
    (hp : PropInv s) : PropInv s' := by
  unfold PropInv at hp ⊢
  rw [h]
  exact hp

lemma newTargetTemp_bounds (wk : Bool) (h : ℤ) (u : ℚ) :
    18 ≤ newTargetTemp wk h u ∧ newTargetTemp wk h u ≤ 26 := by
  unfold newTargetTemp
  constructor
  · exact round01_ge 18 180 (by norm_num) (le_max_left _ _)
  · exact round01_le 26 260 (by norm_num) (max_le (by norm_num) (min_le_left _ _))

lemma fanDraw_cases (i : ℕ) :
    randomChoice [(1 : ℤ), 2, 3] i = 1 ∨ randomChoice [(1 : ℤ), 2, 3] i = 2 ∨
      randomChoice [(1 : ℤ), 2, 3] i = 3 := by
  have h : i % 3 = 0 ∨ i % 3 = 1 ∨ i % 3 = 2 := by omega
  rcases h with h | h | h <;> simp [randomChoice, h]

lemma update_props_propInv {s : SimState} (now tf : ℚ) (o : PropDraws)
    (h : PropInv s) : PropInv (update_room_properties s now tf o) := by
  unfold update_room_properties
  by_cases hgate : now > s.property_change_time
  · simp only [if_pos hgate]
    intro r
    set wk := is_weekend s.start_time now
    set hour := hour_of_day s.start_time now
    by_cases hroll : o.modeRoll < 0.2
    · simp only [if_pos hroll]
      by_cases hr : r = randomChoice rooms o.roomIdx
      · simp only [if_pos hr]
        set m := modeSelect (15 + 6.5 * tf)
          (randomChoice [HvacMode.off, HvacMode.heating, HvacMode.cooling] o.modeDraw)
          with hmdef
        refine ⟨newTargetTemp_bounds _ _ _, ?_, ?_⟩
        · by_cases hm : m = HvacMode.off
          · simp [hm]
          · simp only [if_neg hm]
            rcases fanDraw_cases o.fanIdx with hc | hc | hc <;> rw [hc] <;> tauto
        · by_cases hm : m = HvacMode.off
          · simp [hm]
          · simp only [if_neg hm]
            constructor
            · intro hz
              rcases fanDraw_cases o.fanIdx with hc | hc | hc <;> rw [hc] at hz <;>
                exact absurd hz (by norm_num)
            · intro hmo
              exact absurd hmo hm
      · simp only [if_neg hr]
        exact ⟨newTargetTemp_bounds _ _ _, (h r).2.1, (h r).2.2⟩
    · simp only [if_neg hroll]
      exact ⟨newTargetTemp_bounds _ _ _, (h r).2.1, (h r).2.2⟩
  · simp only [if_neg hgate]
    exact h

lemma initState_occInv (now : ℚ) (o : InitDraws) : OccInv (initState now o) := by
  refine ⟨?_, by norm_num [initState], by norm_num [initState]⟩
  show (0 : ℤ) = countOcc (fun _ => false)
  rfl

lemma initState_propInv (now : ℚ) (o : InitDraws) : PropInv (initState now o) := by
  intro r
  have hrp : (initState now o).room_properties = initProps := rfl
  rw [hrp]
  rcases r <;> simp [initProps] <;> norm_num

/-- Every reachable simulator state satisfies the occupancy bookkeeping
invariant and the room property invariant. -/
lemma reach_inv (s : SimState) (h : Reachable s) : OccInv s ∧ PropInv s := by
  induction h with
  | init now o => exact ⟨initState_occInv now o, initState_propInv now o⟩
  | occ s now o _ ih =>
    exact ⟨update_occupancy_occInv now o ih.1,
      propInv_congr (update_occupancy_props s now o) ih.2⟩
  | props s now tf o _ ih =>
    exact ⟨occInv_congr (update_props_frame s now tf o).2 (update_props_frame s now tf o).1
      ih.1, update_props_propInv now tf o ih.2⟩
  | amb s now tf tf3 o _ ih =>
    exact ⟨occInv_congr (amb_frame s now tf tf3 o).2.1 (amb_frame s now tf tf3 o).1 ih.1,
      propInv_congr (amb_frame s now tf tf3 o).2.2 ih.2⟩

lemma time_factor_six : time_factor 6 = 0 := by
  unfold time_factor
  rw [show 2 * Real.pi * (((6 : ℤ) : ℝ) - 6) / 24 = 0 by push_cast; ring, Real.sin_zero]

lemma time_factor_twelve : time_factor 12 = 1 := by
  unfold time_factor
  rw [show 2 * Real.pi * (((12 : ℤ) : ℝ) - 6) / 24 = Real.pi / 2 by push_cast; ring,
    Real.sin_pi_div_two]

lemma time_factor_eighteen : time_factor 18 = 0 := by
  unfold time_factor
  rw [show 2 * Real.pi * (((18 : ℤ) : ℝ) - 6) / 24 = Real.pi by push_cast; ring,
    Real.sin_pi]

lemma time_factor_hour_zero : time_factor 0 = -1 := by
  unfold time_factor
  rw [show 2 * Real.pi * (((0 : ℤ) : ℝ) - 6) / 24 = -(Real.pi / 2) by push_cast; ring,
    Real.sin_neg, Real.sin_pi_div_two]

lemma update_props_target (s : SimState) (now tf : ℚ) (o : PropDraws)
    (hgate : s.property_change_time < now) (r : Room) :
    ((update_room_properties s now tf o).room_properties r).TargetTemperature =
      newTargetTemp (is_weekend s.start_time now) (hour_of_day s.start_time now) (o.u r) := by
  unfold update_room_properties
  rw [if_pos hgate]
  by_cases hroll : o.modeRoll < 0.2
  · simp only [if_pos hroll]
    by_cases hr : r = randomChoice rooms o.roomIdx
    · simp only [if_pos hr]
      rw [hr]
    · simp only [if_neg hr]
  · simp only [if_neg hroll]

lemma runTicks_length (n : ℕ) :
    ∀ (s : SimState) (times : ℕ → ℚ) (draws : ℕ → TickDraws) (pubs : ℕ → Publish),
    (runTicks n s times draws pubs).2.length = n := by
  induction n with
  | zero => intro s times draws pubs; rfl
  | succ n ih =>
    intro s times draws pubs
    simp only [runTicks, List.length_cons]
    rw [ih]

/-- C1: in every reachable simulator state, and hence after every call to
update_occupancy at any time, the total occupant count lies between 0 and 2
and equals the number of rooms whose occupancy flag is true; the initial
state satisfies this and the add, remove and relocate steps preserve it. -/
theorem occupancy_total_matches_count (s : SimState) (h : Reachable s) :
    0 ≤ s.total_occupants ∧ s.total_occupants ≤ 2 ∧
      s.total_occupants = countOcc s.occupancy_state :=
  ⟨(reach_inv s h).1.2.1, (reach_inv s h).1.2.2, (reach_inv s h).1.1⟩

/-- Witness for C1 at a concrete reachable state: the initial state after
one firing of the occupancy update. -/
theorem occupancy_total_matches_count_witness :
    0 ≤ (update_occupancy (initState 0 ⟨0, 0, 0, 0⟩) 1
        ⟨0, 0, fun _ => 0, 1, 0, 0, 10⟩).total_occupants ∧
    (update_occupancy (initState 0 ⟨0, 0, 0, 0⟩) 1
        ⟨0, 0, fun _ => 0, 1, 0, 0, 10⟩).total_occupants ≤ 2 ∧
    (update_occupancy (initState 0 ⟨0, 0, 0, 0⟩) 1
        ⟨0, 0, fun _ => 0, 1, 0, 0, 10⟩).total_occupants =
      countOcc (update_occupancy (initState 0 ⟨0, 0, 0, 0⟩) 1
        ⟨0, 0, fun _ => 0, 1, 0, 0, 10⟩).occupancy_state :=
  occupancy_total_matches_count _
    (Reachable.occ _ 1 ⟨0, 0, fun _ => 0, 1, 0, 0, 10⟩ (Reachable.init 0 ⟨0, 0, 0, 0⟩))

/-- C2: in every reachable state, the target temperature of each room lies in
[18, 26] and its fan speed in {0, 1, 2, 3}; and for every room and all
draws, the synthesized temperature lies in [16, 30], the humidity in
[25, 75], and the power consumption is at least 5 (the standby draw being
taken from the uniform [5, 15] range). -/
theorem sensor_and_property_bounds (s : SimState) (h : Reachable s) (room : Room)
    (ambT ambH tf : ℚ) (ot : TempDraws) (oh : HumDraws) (op : PowerDraws)
    (hstandby : 5 ≤ op.standby) :
    (18 ≤ (s.room_properties room).TargetTemperature ∧
      (s.room_properties room).TargetTemperature ≤ 26) ∧
    ((s.room_properties room).FanSpeed = 0 ∨ (s.room_properties room).FanSpeed = 1 ∨
      (s.room_properties room).FanSpeed = 2 ∨ (s.room_properties room).FanSpeed = 3) ∧
    (16 ≤ get_room_temperature s room ambT tf ot ∧
      get_room_temperature s room ambT tf ot ≤ 30) ∧
    (25 ≤ get_room_humidity s room ambH oh ∧ get_room_humidity s room ambH oh ≤ 75) ∧
    5 ≤ get_power_consumption (s.room_properties room) op := by
  refine ⟨((reach_inv s h).2 room).1, ((reach_inv s h).2 room).2.1, ?_, ?_, ?_⟩
  · unfold get_room_temperature
    constructor
    · exact round01_ge 16 160 (by norm_num) (le_max_left _ _)
    · exact round01_le 30 300 (by norm_num) (max_le (by norm_num) (min_le_left _ _))
  · unfold get_room_humidity
    constructor
    · exact round01_ge 25 250 (by norm_num) (le_max_left _ _)
    · exact round01_le 75 750 (by norm_num) (max_le (by norm_num) (min_le_left _ _))
  · unfold get_power_consumption
    by_cases hm : (s.room_properties room).Mode = HvacMode.off
    · simp only [if_pos hm]
      exact round01_ge 5 50 (by norm_num) hstandby
    · simp only [if_neg hm]
      exact round01_ge 5 50 (by norm_num) (le_max_left _ _)

/-- Witness for C2 at the initial state with concrete draws. -/
theorem sensor_and_property_bounds_witness :
    (18 ≤ ((initState 0 ⟨0, 0, 0, 0⟩).room_properties Room.room1).TargetTemperature ∧
      ((initState 0 ⟨0, 0, 0, 0⟩).room_properties Room.room1).TargetTemperature ≤ 26) ∧
    (((initState 0 ⟨0, 0, 0, 0⟩).room_properties Room.room1).FanSpeed = 0 ∨
      ((initState 0 ⟨0, 0, 0, 0⟩).room_properties Room.room1).FanSpeed = 1 ∨
      ((initState 0 ⟨0, 0, 0, 0⟩).room_properties Room.room1).FanSpeed = 2 ∨
      ((initState 0 ⟨0, 0, 0, 0⟩).room_properties Room.room1).FanSpeed = 3) ∧
    (16 ≤ get_room_temperature (initState 0 ⟨0, 0, 0, 0⟩) Room.room1 0 0 ⟨0, 0, 0⟩ ∧
      get_room_temperature (initState 0 ⟨0, 0, 0, 0⟩) Room.room1 0 0 ⟨0, 0, 0⟩ ≤ 30) ∧
    (25 ≤ get_room_humidity (initState 0 ⟨0, 0, 0, 0⟩) Room.room1 0 ⟨0, 0, 0, 0⟩ ∧
      get_room_humidity (initState 0 ⟨0, 0, 0, 0⟩) Room.room1 0 ⟨0, 0, 0, 0⟩ ≤ 75) ∧
    5 ≤ get_power_consumption ((initState 0 ⟨0, 0, 0, 0⟩).room_properties Room.room1)
      ⟨5, 0, 0, 0⟩ :=
  sensor_and_property_bounds _ (Reachable.init 0 ⟨0, 0, 0, 0⟩) Room.room1 0 0 0
    ⟨0, 0, 0⟩ ⟨0, 0, 0, 0⟩ ⟨5, 0, 0, 0⟩ (by norm_num)

/-- C3: calling the occupancy update, the room property update, or the
ambient routine with now at most the corresponding next-change time leaves
the simulator state unchanged. -/
theorem gating_frame (s : SimState) (now tf tf3 : ℚ) (oo : OccDraws)
    (op : PropDraws) (oa : AmbDraws) :
    (now ≤ s.occupancy_change_time → update_occupancy s now oo = s) ∧
    (now ≤ s.property_change_time → update_room_properties s now tf op = s) ∧
    (now ≤ s.weather_change_time → (get_ambient_conditions s now tf tf3 oa).1 = s) := by
  refine ⟨fun h => ?_, fun h => ?_, fun h => ?_⟩
  · unfold update_occupancy
    rw [if_neg (not_lt.mpr h)]
  · unfold update_room_properties
    rw [if_neg (not_lt.mpr h)]
  · simp only [get_ambient_conditions]
    rw [if_neg (not_lt.mpr h)]

/-- Witness for C3 at a concrete state whose timers are strictly in the
future. -/
theorem gating_frame_witness :
    update_occupancy (initState 0 ⟨1, 1, 1, 1⟩) 0 ⟨0, 0, fun _ => 0, 0, 0, 0, 0⟩ =
      initState 0 ⟨1, 1, 1, 1⟩ ∧
    update_room_properties (initState 0 ⟨1, 1, 1, 1⟩) 0 0 ⟨fun _ => 0, 0, 0, 0, 0, 0⟩ =
      initState 0 ⟨1, 1, 1, 1⟩ ∧
    (get_ambient_conditions (initState 0 ⟨1, 1, 1, 1⟩) 0 0 0 ⟨0, 0, 0⟩).1 =
      initState 0 ⟨1, 1, 1, 1⟩ := by
  refine ⟨(gating_frame (initState 0 ⟨1, 1, 1, 1⟩) 0 0 0 ⟨0, 0, fun _ => 0, 0, 0, 0, 0⟩
      ⟨fun _ => 0, 0, 0, 0, 0, 0⟩ ⟨0, 0, 0⟩).1 ?_,
    (gating_frame (initState 0 ⟨1, 1, 1, 1⟩) 0 0 0 ⟨0, 0, fun _ => 0, 0, 0, 0, 0⟩
      ⟨fun _ => 0, 0, 0, 0, 0, 0⟩ ⟨0, 0, 0⟩).2.1 ?_,
    (gating_frame (initState 0 ⟨1, 1, 1, 1⟩) 0 0 0 ⟨0, 0, fun _ => 0, 0, 0, 0, 0⟩
      ⟨fun _ => 0, 0, 0, 0, 0, 0⟩ ⟨0, 0, 0⟩).2.2 ?_⟩ <;>
    norm_num [initState]

/-- C4 counterexample: the claim places the maximum of the time factor at
hour 18 and the minimum at hour 6, but the factor at hour 12 is strictly
larger than at hour 18, and at hour 0 strictly smaller than at hour 6. -/
theorem time_factor_peak_cex :
    time_factor 18 < time_factor 12 ∧ time_factor 0 < time_factor 6 := by
  rw [time_factor_eighteen, time_factor_twelve, time_factor_hour_zero, time_factor_six]
  norm_num

/-- C4 (amended): over all integer hours the time factor
sin(2 pi (hour - 6) / 24) attains its maximum at hour 12 and its minimum
at hour 0; at hours 18 and 6 it is zero. -/
theorem time_factor_peak_at_twelve (h : ℤ) :
    time_factor h ≤ time_factor 12 ∧ time_factor 0 ≤ time_factor h := by
  rw [time_factor_twelve, time_factor_hour_zero]
  exact ⟨Real.sin_le_one _, Real.neg_one_le_sin _⟩

/-- C5: with the exact implemented formula, the time factor is 0 at hour 6,
equals sin(pi) = 0 at hour 18, and is strictly positive at hour 12. -/
theorem time_factor_boundary_values :
    time_factor 6 = 0 ∧ time_factor 18 = 0 ∧ 0 < time_factor 12 := by
  rw [time_factor_six, time_factor_eighteen, time_factor_twelve]
  norm_num

/-- C6: on a weekday at hour 10, whenever the property update fires, the
new target temperature of every room is 19.0 plus a uniform offset in
[-0.5, 0.5], clamped and rounded, hence in [18.5, 19.5] and in particular
strictly below the 22.5-centered evening range. -/
theorem weekday_work_hours_target (s : SimState) (now tf : ℚ) (o : PropDraws)
    (hgate : s.property_change_time < now)
    (hwk : is_weekend s.start_time now = false)
    (hhour : hour_of_day s.start_time now = 10)
    (hu : ∀ r : Room, -(1 / 2) ≤ o.u r ∧ o.u r ≤ 1 / 2) (r : Room) :
    18.5 ≤ ((update_room_properties s now tf o).room_properties r).TargetTemperature ∧
    ((update_room_properties s now tf o).room_properties r).TargetTemperature ≤ 19.5 ∧
    ((update_room_properties s now tf o).room_properties r).TargetTemperature < 22 := by
  rw [update_props_target s now tf o hgate r, hwk, hhour]
  have hsched : schedBase false 10 = 19 := by norm_num [schedBase]
  unfold newTargetTemp
  rw [hsched]
  obtain ⟨hu1, hu2⟩ := hu r
  have hclamp : max 18 (min 26 (19 + o.u r)) = 19 + o.u r := by
    rw [min_eq_right (by linarith), max_eq_right (by linarith)]
  rw [hclamp]
  have hlo : (18.5 : ℚ) ≤ round01 (19 + o.u r) :=
    round01_ge 18.5 185 (by norm_num) (by linarith)
  have hhi : round01 (19 + o.u r) ≤ 19.5 :=
    round01_le 19.5 195 (by norm_num) (by linarith)
  exact ⟨hlo, hhi, by linarith⟩

/-- Witness for C6: the property update fired at a weekday time parsed to
hour 10 with zero offsets. -/
theorem weekday_work_hours_target_witness :
    18.5 ≤ ((update_room_properties (initState 0 ⟨0, 0, 0, 0⟩) 37800 0
        ⟨fun _ => 0, 1, 0, 0, 0, 10⟩).room_properties Room.room1).TargetTemperature ∧
    ((update_room_properties (initState 0 ⟨0, 0, 0, 0⟩) 37800 0
        ⟨fun _ => 0, 1, 0, 0, 0, 10⟩).room_properties Room.room1).TargetTemperature ≤ 19.5 ∧
    ((update_room_properties (initState 0 ⟨0, 0, 0, 0⟩) 37800 0
        ⟨fun _ => 0, 1, 0, 0, 0, 10⟩).room_properties Room.room1).TargetTemperature < 22 :=
  weekday_work_hours_target (initState 0 ⟨0, 0, 0, 0⟩) 37800 0
    ⟨fun _ => 0, 1, 0, 0, 0, 10⟩ (by norm_num [initState])
    (by norm_num [is_weekend, day_of_simulation, pyInt, initState])
    (by norm_num [hour_of_day, pyMod, pyInt, initState])
    (fun r => by norm_num) Room.room1

/-- C7 counterexample: the emitted sensor record has no Mode key at all,
so it does not echo the mode of the room. -/
theorem sensor_record_no_mode_field :
    ("Mode") ∉ (sensor_event (initState 0 ⟨0, 0, 0, 0⟩) Room.room1 ("ts")
      0 0 0 0 0).map Prod.fst := by
  decide

/-- C7 (amended): the per-room sensor record echoes the target
temperature, fan speed and occupancy flag, but carries no mode field; its
key set is exactly the thirteen keys of the source dictionary. -/
theorem sensor_record_fields (s : SimState) (room : Room) (ts : String)
    (ambT ambH ct hum pw : ℚ) :
    (sensor_event s room ts ambT ambH ct hum pw).map Prod.fst =
      ["EventType", "Timestamp", "UnitID", "RoomID", "AmbientTemperature",
       "AmbientHumidity", "CurrentTemperature", "TargetTemperature", "FanSpeed",
       "Humidity", "Occupancy", "PowerConsumption", "TotalOccupantCount"] ∧
    ("TargetTemperature", JVal.num (s.room_properties room).TargetTemperature) ∈
      sensor_event s room ts ambT ambH ct hum pw ∧
    ("FanSpeed", JVal.int (s.room_properties room).FanSpeed) ∈
      sensor_event s room ts ambT ambH ct hum pw ∧
    ("Occupancy", JVal.bool (s.occupancy_state room)) ∈
      sensor_event s room ts ambT ambH ct hum pw ∧
    ∀ v : JVal, ("Mode", v) ∉ sensor_event s room ts ambT ambH ct hum pw := by
  refine ⟨rfl, by simp [sensor_event], by simp [sensor_event], by simp [sensor_event], ?_⟩
  intro v
  simp [sensor_event]

/-- C8: publish failures are contained inside the emission routines: the
state produced by a tick does not depend on the publish outcomes, the
apartment record and every room record are emitted in every tick, and the
simulation loop always runs all of its iterations. -/
theorem emission_failures_contained (s : SimState) (now : ℚ) (d : TickDraws)
    (pub pub2 : Publish) :
    (tick s now d pub).1 = (tick s now d pub2).1 ∧
    (tick s now d pub).2.length = rooms.length + 1 ∧
    ∀ (n : ℕ) (times : ℕ → ℚ) (draws : ℕ → TickDraws) (pubs : ℕ → Publish),
      (runTicks n s times draws pubs).2.length = n := by
  refine ⟨rfl, ?_, fun n times draws pubs => runTicks_length n s times draws pubs⟩
  simp [tick, rooms]

/-- C9: in every reachable simulator state and for every room, the fan
speed is 0 exactly when the mode is off. -/
theorem fan_speed_zero_iff_mode_off (s : SimState) (h : Reachable s) (r : Room) :
    (s.room_properties r).FanSpeed = 0 ↔ (s.room_properties r).Mode = HvacMode.off :=
  ((reach_inv s h).2 r).2.2

/-- Witness for C9 at a concrete reachable state after a property update. -/
theorem fan_speed_zero_iff_mode_off_witness :
    ((update_room_properties (initState 0 ⟨0, 0, 0, 0⟩) 1 0
        ⟨fun _ => 0, 0, 0, 0, 0, 10⟩).room_properties Room.room3).FanSpeed = 0 ↔
    ((update_room_properties (initState 0 ⟨0, 0, 0, 0⟩) 1 0
        ⟨fun _ => 0, 0, 0, 0, 0, 10⟩).room_properties Room.room3).Mode = HvacMode.off :=
  fan_speed_zero_iff_mode_off _
    (Reachable.props _ 1 0 ⟨fun _ => 0, 0, 0, 0, 0, 10⟩ (Reachable.init 0 ⟨0, 0, 0, 0⟩))
    Room.room3

/-- C10: the approximate ambient temperature 15 + 6.5 * time_factor never
exceeds 21.5, so the branch of the mode pick that forces cooling when this
value exceeds 25 is unreachable: the pick returns cooling only when the
uniform three-way draw itself is cooling. -/
theorem cooling_branch_unreachable :
    (∀ h : ℤ, ambient_approx h ≤ 21.5 ∧ ¬ (ambient_approx h > 25)) ∧
    (∀ (tf : ℚ) (d : HvacMode), tf ≤ 1 →
      modeSelect (15 + 6.5 * tf) d = HvacMode.cooling → d = HvacMode.cooling) := by
  constructor
  · intro h
    have hs : time_factor h ≤ 1 := Real.sin_le_one _
    have hb : ambient_approx h ≤ 21.5 := by
      unfold ambient_approx
      nlinarith
    exact ⟨hb, by intro hc; linarith⟩
  · intro tf d htf hsel
    unfold modeSelect at hsel
    rw [if_neg (by linarith : ¬ ((15 : ℚ) + 6.5 * tf > 25))] at hsel
    by_cases hlt : (15 : ℚ) + 6.5 * tf < 12
    · rw [if_pos hlt] at hsel
      exact absurd hsel (by decide)
    · rw [if_neg hlt] at hsel
      exact hsel

/-- Witness for C10: the hypotheses hold at time factor 0 with the draw
itself cooling. -/
theorem cooling_branch_unreachable_witness :
    (ambient_approx 12 ≤ 21.5 ∧ ¬ (ambient_approx 12 > 25)) ∧
    HvacMode.cooling = HvacMode.cooling :=
  ⟨cooling_branch_unreachable.1 12,
   cooling_branch_unreachable.2 0 HvacMode.cooling (by norm_num) (by norm_num [modeSelect])⟩
